import Mathlib

/-!
Shallow embedding of the AlbumStore service (Go, two variants).

The repository has two variants of the same HTTP service:
* the *remote* variant (`main.go`): stores images in S3 via `uploadToS3`
  and album metadata in discrete MySQL columns (`newAlbum`,
  `getAlbumByKey`);
* the *local* variant (second source file): stores images on the local
  filesystem via `saveImageLocally` and metadata as a JSON blob produced
  by `encoding/json` (anonymous POST/GET handlers, here named
  `localPostAlbums` / `localGetAlbums`).

Go strings are modelled as lists of Unicode scalar values (`List Char`);
byte streams as `List Nat`.  External effects (S3, filesystem, MySQL)
are made explicit: failure oracles are passed as arguments and the
database / filesystem are explicit states threaded through the
handlers.  The relevant parts of the Go standard library
(`encoding/json` string marshalling/unmarshalling, `strconv.Atoi`,
`path/filepath.Ext/Join/Clean`) are embedded faithfully at the level of
Unicode scalar values.
-/

namespace AlbumStore

/-- Go strings, modelled as sequences of Unicode scalar values. -/
abbrev GoStr := List Char

/-- Convert a Lean string literal to the `GoStr` model. -/
def str (s : String) : GoStr := s.data

/-- The double-quote character `"` (U+0022). -/
def quoteCh : Char := Char.ofNat 34

/-- The opening-brace character (U+007B). -/
def lbrace : Char := Char.ofNat 123

/-- The closing-brace character (U+007D). -/
def rbrace : Char := Char.ofNat 125

/-- The Unicode replacement character U+FFFD, produced by Go's JSON
decoder for lone surrogate escapes. -/
def fffdCh : Char := Char.ofNat 0xFFFD

/-- Lowercase hex digit for a value `< 16`, as used by Go's JSON
encoder (`encoding/json` uses the digit table "0123456789abcdef"). -/
def hexDigitChar (n : Nat) : Char :=
  if n < 10 then Char.ofNat (48 + n) else Char.ofNat (87 + n)

/-- Value of one hex digit (accepting both cases), `none` for a
non-hex character; models `encoding/json.getu4`'s per-digit step. -/
def hexVal (c : Char) : Option Nat :=
  if 48 ≤ c.toNat ∧ c.toNat ≤ 57 then some (c.toNat - 48)
  else if 97 ≤ c.toNat ∧ c.toNat ≤ 102 then some (c.toNat - 87)
  else if 65 ≤ c.toNat ∧ c.toNat ≤ 70 then some (c.toNat - 55)
  else none

/-- Value of four hex digits, `none` if any is not hex
(models `encoding/json.getu4`). -/
def hex4 (h1 h2 h3 h4 : Char) : Option Nat :=
  match hexVal h1, hexVal h2, hexVal h3, hexVal h4 with
  | some a, some b, some c, some d => some (((a * 16 + b) * 16 + c) * 16 + d)
  | _, _, _, _ => none

/-- How Go's JSON encoder (`encoding/json`, HTML escaping on, as used
by `json.Marshal`) renders one scalar value inside a string literal:
`"` and `\` are backslash-escaped, `\n`/`\r`/`\t` use the short forms,
other control characters use `\u00xx`, the HTML-sensitive `<` `>` `&`
use `<`/`>`/`&`, U+2028/U+2029 use ` `/` `,
and every other scalar is emitted literally. -/
def escapeChar (c : Char) : GoStr :=
  if c = quoteCh then ['\\', quoteCh]
  else if c = '\\' then ['\\', '\\']
  else if c = '\n' then ['\\', 'n']
  else if c = '\r' then ['\\', 'r']
  else if c = '\t' then ['\\', 't']
  else if c.toNat < 32 then
    ['\\', 'u', '0', '0', hexDigitChar (c.toNat / 16), hexDigitChar (c.toNat % 16)]
  else if c = '<' then ['\\', 'u', '0', '0', '3', 'c']
  else if c = '>' then ['\\', 'u', '0', '0', '3', 'e']
  else if c = '&' then ['\\', 'u', '0', '0', '2', '6']
  else if c.toNat = 0x2028 then ['\\', 'u', '2', '0', '2', '8']
  else if c.toNat = 0x2029 then ['\\', 'u', '2', '0', '2', '9']
  else [c]

/-- Body of a JSON string literal: each scalar escaped as Go's encoder
does. -/
def escapeString (s : GoStr) : GoStr := s.flatMap escapeChar

/-- A complete JSON string literal: `"` body `"`. -/
def jsonQuote (s : GoStr) : GoStr := quoteCh :: (escapeString s ++ [quoteCh])

/-- `AlbumMetadata` of the local variant: the three free-form text
fields, JSON-tagged `artist`, `title`, `year`. -/
structure AlbumMetadata where
  artist : GoStr
  title : GoStr
  year : GoStr
deriving DecidableEq, Repr

/-- The member list of the marshalled `AlbumMetadata` object: the
three `"tag":"value"` members in struct order, comma-separated,
followed by the closing brace. -/
def marshalMembers (a t y : GoStr) : GoStr :=
  jsonQuote (str "artist") ++ (':' ::
    (jsonQuote a ++ (',' ::
      (jsonQuote (str "title") ++ (':' ::
        (jsonQuote t ++ (',' ::
          (jsonQuote (str "year") ++ (':' ::
            (jsonQuote y ++ [rbrace]))))))))))

/-- `json.Marshal` applied to an `AlbumMetadata` value, exactly as
`encoding/json` renders it: the fields in struct order, under their
JSON tags, with no whitespace. -/
def marshalMetadata (m : AlbumMetadata) : GoStr :=
  lbrace :: marshalMembers m.artist m.title m.year

/-- Wrap the first component of a parser result with one more leading
character. -/
def consCh (c : Char) : Option (GoStr × GoStr) → Option (GoStr × GoStr)
  | none => none
  | some (s, rest) => some (c :: s, rest)

/-- Decode one backslash escape of a JSON string literal (the input
starts after the backslash), models the escape cases of
`encoding/json.unquoteBytes`: the named escapes
`\" \\ \/ \n \r \t \b \f`, and `\uXXXX`, where a surrogate is
combined with a following low-surrogate escape and a lone surrogate
decodes to U+FFFD, exactly as `utf16.DecodeRune` behaves in Go's
decoder.  Returns the decoded scalar and the remaining input; any
other escape is an error. -/
def parseEscape : GoStr → Option (Char × GoStr)
  | [] => none
  | e :: cs =>
    if e = quoteCh then some (quoteCh, cs)
    else if e = '\\' then some ('\\', cs)
    else if e = '/' then some ('/', cs)
    else if e = 'n' then some ('\n', cs)
    else if e = 'r' then some ('\r', cs)
    else if e = 't' then some ('\t', cs)
    else if e = 'b' then some (Char.ofNat 8, cs)
    else if e = 'f' then some (Char.ofNat 12, cs)
    else if e = 'u' then
      match cs with
      | h1 :: h2 :: h3 :: h4 :: cs2 =>
        match hex4 h1 h2 h3 h4 with
        | none => none
        | some n =>
          if n < 0xD800 ∨ 0xE000 ≤ n then some (Char.ofNat n, cs2)
          else match cs2 with
            | b1 :: u1 :: g1 :: g2 :: g3 :: g4 :: cs3 =>
              if b1 = '\\' ∧ u1 = 'u' then
                match hex4 g1 g2 g3 g4 with
                | some m =>
                  if 0xD800 ≤ n ∧ n < 0xDC00 ∧ 0xDC00 ≤ m ∧ m < 0xE000 then
                    some (Char.ofNat (0x10000 + (n - 0xD800) * 0x400 + (m - 0xDC00)), cs3)
                  else some (fffdCh, cs2)
                | none => some (fffdCh, cs2)
              else some (fffdCh, cs2)
            | _ => some (fffdCh, cs2)
      | _ => none
    else none

/-- Parser for the body of a JSON string literal (after the opening
quote): decode scalars (via `parseEscape` after each backslash) until
the closing quote, returning the decoded scalars and the input
remaining after it; end of input before the closing quote is an
error.  The loop is driven by explicit fuel, one unit per decoded
scalar; callers pass the input length, an upper bound on the number
of scalars, so the fuel never runs out before the input does. -/
def parseStringBody : Nat → GoStr → Option (GoStr × GoStr)
  | _, [] => none
  | 0, _ :: _ => none
  | fuel + 1, c :: cs =>
    if c = quoteCh then some ([], cs)
    else if c = '\\' then
      match parseEscape cs with
      | none => none
      | some (ch, rest) => consCh ch (parseStringBody fuel rest)
    else consCh c (parseStringBody fuel cs)

/-- Parser for a JSON string literal including its opening quote,
with the same fuel discipline as `parseStringBody`. -/
def parseJSONString (fuel : Nat) : GoStr → Option (GoStr × GoStr)
  | [] => none
  | c :: cs => if c = quoteCh then parseStringBody fuel cs else none

/-- ASCII-case-insensitive key comparison, modelling
`encoding/json`'s case-insensitive field matching (the struct tags
here are all-ASCII, where Go's fold coincides with ASCII lowering). -/
def keyIs (k : GoStr) (name : GoStr) : Bool :=
  k.map (fun c => if 65 ≤ c.toNat ∧ c.toNat ≤ 90 then Char.ofNat (c.toNat + 32) else c)
    == name

/-- Assign a decoded member to the matching `AlbumMetadata` field;
unknown keys are ignored, as `json.Unmarshal` does. -/
def applyField (m : AlbumMetadata) (k v : GoStr) : AlbumMetadata :=
  if keyIs k (str "artist") then { m with artist := v }
  else if keyIs k (str "title") then { m with title := v }
  else if keyIs k (str "year") then { m with year := v }
  else m

/-- Members of a JSON object whose values are string literals (the
shape `json.Marshal` produces for `AlbumMetadata`): repeatedly parse
`"key" : "value"`, separated by `,`, until the closing brace; later
duplicate keys overwrite earlier ones, as in `json.Unmarshal`.  One
unit of fuel per member, and the member count is bounded by the input
length, so callers pass the input length as fuel; the string parsers
receive the same fuel, which also bounds their needs. -/
def parseMembers : Nat → AlbumMetadata → GoStr → Option (AlbumMetadata × GoStr)
  | 0, _, _ => none
  | fuel + 1, m, cs =>
    match parseJSONString (fuel + 1) cs with
    | none => none
    | some (k, cs1) =>
      match cs1 with
      | [] => none
      | c :: cs2 =>
        if c = ':' then
          match parseJSONString (fuel + 1) cs2 with
          | none => none
          | some (v, cs3) =>
            match cs3 with
            | [] => none
            | d :: cs4 =>
              if d = ',' then parseMembers fuel (applyField m k v) cs4
              else if d = rbrace then some (applyField m k v, cs4)
              else none
        else none

/-- `json.Unmarshal` of the stored metadata column into an
`AlbumMetadata` (fields start from Go's zero value, i.e. empty
strings), restricted to objects with string-literal values and no
interior whitespace — the exact shape the POST handler stores.
Trailing input after the object is an error, as in `json.Unmarshal`. -/
def unmarshalMetadata (cs : GoStr) : Option AlbumMetadata :=
  match cs with
  | [] => none
  | c :: cs1 =>
    if c = lbrace then
      if cs1 = [rbrace] then some ⟨[], [], []⟩
      else
        match parseMembers cs1.length ⟨[], [], []⟩ cs1 with
        | some (m, rest) => if rest = [] then some m else none
        | none => none
    else none

/-- Is `c` a decimal digit? -/
def isDigitCh (c : Char) : Bool := 48 ≤ c.toNat ∧ c.toNat ≤ 57

/-- Numeric value of a list of decimal digits (most significant
first). -/
def digitsVal (ds : GoStr) : Nat :=
  ds.foldl (fun acc c => acc * 10 + (c.toNat - 48)) 0

/-- `strconv.Atoi` (i.e. `ParseInt` base 10 into Go's 64-bit `int`):
an optional single `+`/`-` sign followed by one or more decimal
digits; anything else, or a value outside the `int64` range, is an
error (`Atoi` then returns a non-nil error, which is all the callers
look at), modelled as `none`. -/
def goAtoi (s : GoStr) : Option Int :=
  match s with
  | [] => none
  | c :: rest =>
    let (neg, ds) : Bool × GoStr :=
      if c = '+' then (false, rest)
      else if c = '-' then (true, rest)
      else (false, s)
    if ds = [] then none
    else if ds.all isDigitCh then
      let v := digitsVal ds
      if neg then
        if v ≤ 2 ^ 63 then some (-(v : Int)) else none
      else
        if v < 2 ^ 63 then some (v : Int) else none
    else none

/-- Model of the external MySQL engine's coercion of a string
parameter compared against the integer primary-key column (the local
variant's GET handler binds the raw path parameter into
`WHERE id = ?`): MySQL converts the string to a number using its
longest leading numeric prefix, `0` when there is none.  Restricted
here to integer-form prefixes, which covers every identifier the
claims quantify over. -/
def mysqlKeyCoerce (s : GoStr) : Int :=
  match s with
  | [] => 0
  | c :: rest =>
    let (neg, ds) : Bool × GoStr :=
      if c = '+' then (false, rest)
      else if c = '-' then (true, rest)
      else (false, s)
    let pre := ds.takeWhile isDigitCh
    if neg then -(digitsVal pre : Int) else (digitsVal pre : Int)

/-- `path/filepath.Ext`: the suffix of the last slash-separated
element starting at its final dot, empty when that element has no
dot.  `go` walks the reversed path accumulating the suffix seen so
far. -/
def extAux : GoStr → GoStr → GoStr
  | [], _ => []
  | c :: rest, suffix =>
    if c = '/' then []
    else if c = '.' then '.' :: suffix
    else extAux rest (c :: suffix)

/-- `path/filepath.Ext` on the `GoStr` model. -/
def filepathExt (s : GoStr) : GoStr := extAux s.reverse []

/-- Split a path on `/`. -/
def splitSlash (s : GoStr) : List GoStr :=
  s.splitOn '/'

/-- One step of `filepath.Clean`'s element processing, on the stack of
kept elements (most recent first): `..` pops a kept element, stays at
the root when rooted, and accumulates when relative. -/
def cleanStep (rooted : Bool) (stack : List GoStr) (elem : GoStr) : List GoStr :=
  if elem = str ".." then
    match stack with
    | [] => if rooted then [] else [str ".."]
    | top :: rest => if top = str ".." then str ".." :: stack else rest
  else elem :: stack

/-- `path/filepath.Clean` (Unix rules): drop empty and `.` elements,
resolve `..` lexically, keep leading `..`s of a relative path, return
`.` for an empty relative result and `/` for an empty rooted one. -/
def filepathClean (s : GoStr) : GoStr :=
  if s = [] then ['.']
  else
    let rooted := s.head? = some '/'
    let elems := (splitSlash s).filter (fun e => e ≠ [] ∧ e ≠ ['.'])
    let kept := (elems.foldl (cleanStep rooted) []).reverse
    let body := (kept.intersperse ['/']).flatten
    if rooted then '/' :: body
    else if body = [] then ['.']
    else body

/-- `path/filepath.Join` of two elements: empty elements are dropped,
the rest joined with `/` and `Clean`ed; all-empty input gives the
empty string. -/
def filepathJoin (a b : GoStr) : GoStr :=
  if a = [] ∧ b = [] then []
  else if a = [] then filepathClean b
  else if b = [] then filepathClean a
  else filepathClean (a ++ '/' :: b)

/-- An uploaded multipart file part: original filename, declared
content type and the byte stream. -/
structure FilePart where
  filename : GoStr
  contentType : GoStr
  content : List Nat
deriving DecidableEq, Repr

/-- A POST request as the handlers see it: the optional `image` file
part (`FormFile` fails when absent) and the multipart text fields. -/
structure NewReq where
  file : Option FilePart
  form : List (GoStr × GoStr)
deriving DecidableEq, Repr

/-- `c.PostForm key`: the first value stored under `key`, or the
empty string when the field is absent. -/
def postForm (form : List (GoStr × GoStr)) (key : GoStr) : GoStr :=
  match form.find? (fun p => p.1 == key) with
  | some p => p.2
  | none => []

/-! ## Remote variant (`main.go`): S3 blob store + discrete columns -/

/-- The `Album` struct of `main.go`.  `imageSize` is in the JSON
response but there is no corresponding database column. -/
structure Album where
  id : Int
  imageURL : GoStr
  artist : GoStr
  title : GoStr
  year : GoStr
  imageSize : Int
deriving DecidableEq, Repr

/-- One row of the remote variant's `albums` table: the four stored
columns besides the auto-increment `id`. -/
structure AlbumRow where
  image_url : GoStr
  artist : GoStr
  title : GoStr
  year : GoStr
deriving DecidableEq, Repr

/-- The remote variant's `albums` table: `AUTO_INCREMENT` counter plus
the rows, newest first. -/
structure RemoteDB where
  nextId : Int
  rows : List (Int × AlbumRow)
deriving DecidableEq, Repr

/-- `INSERT INTO albums …` followed by `LastInsertId`: stores the row
under the auto-increment id and returns that id. -/
def RemoteDB.insert (db : RemoteDB) (r : AlbumRow) : Int × RemoteDB :=
  (db.nextId, ⟨db.nextId + 1, (db.nextId, r) :: db.rows⟩)

/-- `SELECT … FROM albums WHERE id = ?`: the row stored under `id`,
`none` (→ `sql.ErrNoRows`) when there is none. -/
def RemoteDB.lookup (db : RemoteDB) (id : Int) : Option AlbumRow :=
  (db.rows.find? (fun p => p.1 == id)).map (·.2)

/-- Failure oracles for the effects `uploadToS3` performs: temp-file
creation, the `io.Copy` into it, and the S3 `PutObject`. -/
structure S3Eff where
  tempFileOk : Bool
  copyOk : Bool
  putOk : Bool
deriving DecidableEq, Repr

/-- The S3 object key `uploadToS3` chooses: `images/` + a fresh UUID +
the original filename's extension.  The UUID drawn by `uuid.New()` is
passed in explicitly. -/
def s3Key (uuid : GoStr) (filename : GoStr) : GoStr :=
  str "images/" ++ uuid ++ filepathExt filename

/-- The public URL `uploadToS3` reports for a key in `bucket`. -/
def s3URL (bucket key : GoStr) : GoStr :=
  str "https://" ++ bucket ++ str ".s3.amazonaws.com/" ++ key

/-- `uploadToS3`: on success returns the bucket/key URL together with
the number of bytes `io.Copy` moved, i.e. the length of the uploaded
stream; any failed step aborts with an error (`none`). -/
def uploadToS3 (bucket uuid : GoStr) (file : FilePart) (eff : S3Eff) :
    Option (GoStr × Int) :=
  if ¬eff.tempFileOk then none
  else if ¬eff.copyOk then none
  else if ¬eff.putOk then none
  else some (s3URL bucket (s3Key uuid file.filename), (file.content.length : Int))

/-- Outcome of the remote variant's POST handler `newAlbum`. -/
inductive NewAlbumResp where
  | badRequest
  | s3Error
  | dbError
  | ok (albumID : Int) (imageSize : Int)
deriving DecidableEq, Repr

/-- HTTP status the handler writes for each `NewAlbumResp`. -/
def NewAlbumResp.status : NewAlbumResp → Nat
  | .badRequest => 400
  | .s3Error => 500
  | .dbError => 500
  | .ok _ _ => 200

/-- The remote POST handler `newAlbum`: require the `image` file part,
read the text fields `profile[artist]`, `profile[title]`,
`profile[year]`, upload to S3 (abort with 500 on failure, before any
database write), insert the row, and answer with the new id and the
uploaded size.  `insertOk` is the failure oracle of the `INSERT`. -/
def newAlbum (bucket uuid : GoStr) (req : NewReq) (eff : S3Eff)
    (insertOk : Bool) (db : RemoteDB) : NewAlbumResp × RemoteDB :=
  match req.file with
  | none => (.badRequest, db)
  | some file =>
    let artist := postForm req.form (str "profile[artist]")
    let title := postForm req.form (str "profile[title]")
    let year := postForm req.form (str "profile[year]")
    match uploadToS3 bucket uuid file eff with
    | none => (.s3Error, db)
    | some (imageURL, imageSize) =>
      if ¬insertOk then (.dbError, db)
      else
        let (id, db1) := db.insert ⟨imageURL, artist, title, year⟩
        (.ok id imageSize, db1)

/-- Outcome of the remote variant's GET handler `getAlbumByKey`. -/
inductive GetAlbumResp where
  | badRequest
  | notFound
  | dbError
  | ok (album : Album)
deriving DecidableEq, Repr

/-- HTTP status the handler writes for each `GetAlbumResp`. -/
def GetAlbumResp.status : GetAlbumResp → Nat
  | .badRequest => 400
  | .notFound => 404
  | .dbError => 500
  | .ok _ => 200

/-- The remote GET handler `getAlbumByKey`: `strconv.Atoi` the path
parameter (400 on error, before touching the database), then select
the row (`queryOk` is the infrastructure-failure oracle of the query;
`sql.ErrNoRows` → 404).  `var album Album` starts from the zero value
and `Scan` fills only the five selected columns, so `imageSize` stays
`0`.  The second component records whether a database query was
performed. -/
def getAlbumByKey (idStr : GoStr) (queryOk : Bool) (db : RemoteDB) :
    GetAlbumResp × Bool :=
  match goAtoi idStr with
  | none => (.badRequest, false)
  | some id =>
    if ¬queryOk then (.dbError, true)
    else match db.lookup id with
      | none => (.notFound, true)
      | some r => (.ok ⟨id, r.image_url, r.artist, r.title, r.year, 0⟩, true)

/-! ## Local variant: filesystem blob store + JSON metadata column -/

/-- `AlbumInfo` of the local variant, the GET response shape. -/
structure AlbumInfo where
  albumID : Int
  imageURL : GoStr
  metadata : AlbumMetadata
deriving DecidableEq, Repr

/-- One row of the local variant's `albums` table: `image_url` plus
the serialized `metadata` JSON column. -/
structure LocalRow where
  image_url : GoStr
  metadata : GoStr
deriving DecidableEq, Repr

/-- The local variant's `albums` table. -/
structure LocalDB where
  nextId : Int
  rows : List (Int × LocalRow)
deriving DecidableEq, Repr

/-- `INSERT INTO albums (image_url, metadata) …` + `LastInsertId`. -/
def LocalDB.insert (db : LocalDB) (r : LocalRow) : Int × LocalDB :=
  (db.nextId, ⟨db.nextId + 1, (db.nextId, r) :: db.rows⟩)

/-- Single-row lookup by the integer key. -/
def LocalDB.lookup (db : LocalDB) (id : Int) : Option LocalRow :=
  (db.rows.find? (fun p => p.1 == id)).map (·.2)

/-- The local filesystem: the set of directories known to exist and
the files with their contents. -/
structure LocalFS where
  dirs : List GoStr
  files : List (GoStr × List Nat)
deriving DecidableEq, Repr

/-- Store `content` at `path`, replacing any previous file there
(`os.Create` truncates). -/
def LocalFS.setFile (fs : LocalFS) (path : GoStr) (content : List Nat) : LocalFS :=
  ⟨fs.dirs, (path, content) :: fs.files.filter (fun p => p.1 ≠ path)⟩

/-- The content stored at `path`, if any. -/
def LocalFS.readFile (fs : LocalFS) (path : GoStr) : Option (List Nat) :=
  (fs.files.find? (fun p => p.1 == path)).map (·.2)

/-- Failure oracles for the effects `saveImageLocally` performs:
`os.MkdirAll`, `imageFile.Open`, `os.Create` and `io.Copy`. -/
structure FsEff where
  mkdirOk : Bool
  openOk : Bool
  createOk : Bool
  copyOk : Bool
deriving DecidableEq, Repr

/-- The fixed image directory of `saveImageLocally`. -/
def imageDir : GoStr := str "./images"

/-- `saveImageLocally`: ensure `./images` exists, open the upload,
create the file at `filepath.Join("./images", <original filename>)`
(truncating any previous file of that name — last write wins), copy
the bytes in, and return the joined path.  Each failing step aborts
with an error; a failed `io.Copy` leaves the file truncated. -/
def saveImageLocally (imageFile : FilePart) (eff : FsEff) (fs : LocalFS) :
    Option GoStr × LocalFS :=
  if ¬eff.mkdirOk then (none, fs)
  else
    let fs1 : LocalFS := ⟨imageDir :: fs.dirs.filter (· ≠ imageDir), fs.files⟩
    let filePath := filepathJoin imageDir imageFile.filename
    if ¬eff.openOk then (none, fs1)
    else if ¬eff.createOk then (none, fs1)
    else if ¬eff.copyOk then (none, fs1.setFile filePath [])
    else (some filePath, fs1.setFile filePath imageFile.content)

/-- Outcome of the local variant's POST handler. -/
inductive LocalNewResp where
  | badRequest
  | fsError
  | dbError
  | ok (albumID : Int) (imagePath : GoStr)
deriving DecidableEq, Repr

/-- HTTP status written for each `LocalNewResp`. -/
def LocalNewResp.status : LocalNewResp → Nat
  | .badRequest => 400
  | .fsError => 500
  | .dbError => 500
  | .ok _ _ => 200

/-- The local variant's anonymous `POST /albums` handler: require the
`image` part, read the text fields `artist`, `title`, `year`, save
the image locally (abort with 500 on failure, before any database
write), `json.Marshal` the metadata (which cannot fail on this
struct, so the handler's marshal-error branch is dead), insert the
row, and answer with the new id and the image path. -/
def localPostAlbums (req : NewReq) (eff : FsEff) (insertOk : Bool)
    (fs : LocalFS) (db : LocalDB) : LocalNewResp × LocalFS × LocalDB :=
  match req.file with
  | none => (.badRequest, fs, db)
  | some imageFile =>
    let artist := postForm req.form (str "artist")
    let title := postForm req.form (str "title")
    let year := postForm req.form (str "year")
    match saveImageLocally imageFile eff fs with
    | (none, fs1) => (.fsError, fs1, db)
    | (some imagePath, fs1) =>
      let metadataJSON := marshalMetadata ⟨artist, title, year⟩
      if ¬insertOk then (.dbError, fs1, db)
      else
        let (id, db1) := db.insert ⟨imagePath, metadataJSON⟩
        (.ok id imagePath, fs1, db1)

/-- Outcome of the local variant's GET handler.  There is no
bad-request outcome: the handler never parses the identifier. -/
inductive LocalGetResp where
  | notFound
  | dbError
  | decodeError
  | ok (album : AlbumInfo)
deriving DecidableEq, Repr

/-- HTTP status written for each `LocalGetResp`. -/
def LocalGetResp.status : LocalGetResp → Nat
  | .notFound => 404
  | .dbError => 500
  | .decodeError => 500
  | .ok _ => 200

/-- The local variant's anonymous `GET /albums/:albumID` handler: the
raw path parameter is bound directly into `WHERE id = ?` (no parsing
— the database is always queried, and the comparison uses the
engine's string-to-number coercion `mysqlKeyCoerce`); `sql.ErrNoRows`
→ 404, other query failure (`queryOk` oracle) → 500; the metadata
column is `json.Unmarshal`ed, failure → 500.  The second component
records whether a database query was performed. -/
def localGetAlbums (idStr : GoStr) (queryOk : Bool) (db : LocalDB) :
    LocalGetResp × Bool :=
  if ¬queryOk then (.dbError, true)
  else match db.lookup (mysqlKeyCoerce idStr) with
    | none => (.notFound, true)
    | some r =>
      match unmarshalMetadata r.metadata with
      | none => (.decodeError, true)
      | some m => (.ok ⟨mysqlKeyCoerce idStr, r.image_url, m⟩, true)

/-! ## Correctness of the JSON string round-trip -/



lemma hexVal_hexDigitChar (k : Nat) (h : k < 16) : hexVal (hexDigitChar k) = some k := by
  interval_cases k <;> rfl

lemma hex4_00 (c : Char) (h : c.toNat < 32) :
    hex4 '0' '0' (hexDigitChar (c.toNat / 16)) (hexDigitChar (c.toNat % 16)) =
      some c.toNat := by
  have hd1 : c.toNat / 16 < 16 := by omega
  have hd2 : c.toNat % 16 < 16 := by omega
  simp only [hex4, hexVal_hexDigitChar _ hd1, hexVal_hexDigitChar _ hd2,
    show hexVal '0' = some 0 from rfl]
  congr 1
  omega

lemma parseEscape_u00 (c : Char) (h : c.toNat < 32) (rest : GoStr) :
    parseEscape ('u' :: '0' :: '0' :: hexDigitChar (c.toNat / 16) ::
      hexDigitChar (c.toNat % 16) :: rest) = some (c, rest) := by
  rw [parseEscape]
  rw [if_neg (by decide), if_neg (by decide), if_neg (by decide), if_neg (by decide),
    if_neg (by decide), if_neg (by decide), if_neg (by decide), if_neg (by decide),
    if_pos rfl]
  simp only [hex4_00 c h]
  rw [if_pos (Or.inl (by omega)), Char.ofNat_toNat]

lemma escapeString_cons (c : Char) (cs : GoStr) :
    escapeString (c :: cs) = escapeChar c ++ escapeString cs := by
  simp [escapeString]

lemma psb_esc (fuel : Nat) (cs rest : GoStr) (ch : Char)
    (h : parseEscape cs = some (ch, rest)) :
    parseStringBody (fuel + 1) ('\\' :: cs) = consCh ch (parseStringBody fuel rest) := by
  rw [parseStringBody]
  rw [if_neg (by decide), if_pos rfl, h]

lemma psb_raw (fuel : Nat) (c : Char) (h1 : c ≠ quoteCh) (h2 : c ≠ '\\') (cs : GoStr) :
    parseStringBody (fuel + 1) (c :: cs) = consCh c (parseStringBody fuel cs) := by
  rw [parseStringBody]
  rw [if_neg h1, if_neg h2]

lemma psb_esc_unit (f : Nat) (c : Char) (esc tail : GoStr)
    (h : parseEscape (esc ++ tail) = some (c, tail)) :
    parseStringBody (f + 1) (('\\' :: esc) ++ tail) = consCh c (parseStringBody f tail) := by
  rw [List.cons_append]
  exact psb_esc f _ _ c h

lemma parseStringBody_escape (s : GoStr) : ∀ (fuel : Nat) (rest : GoStr),
    s.length < fuel →
    parseStringBody fuel (escapeString s ++ quoteCh :: rest) = some (s, rest) := by
  induction s with
  | nil =>
    intro fuel rest hf
    obtain ⟨f, rfl⟩ : ∃ f, fuel = f + 1 := ⟨fuel - 1, by omega⟩
    rfl
  | cons c cs ih =>
    intro fuel rest hf
    obtain ⟨f, rfl⟩ : ∃ f, fuel = f + 1 := ⟨fuel - 1, by omega⟩
    have hf' : cs.length < f := by
      simp only [List.length_cons] at hf
      omega
    have ihr := ih f rest hf'
    rw [escapeString_cons, List.append_assoc]
    by_cases h1 : c = quoteCh
    · subst h1
      rw [show escapeChar quoteCh = ['\\', quoteCh] from rfl,
        psb_esc_unit f quoteCh [quoteCh] _ rfl, ihr]
      rfl
    · by_cases h2 : c = '\\'
      · subst h2
        rw [show escapeChar '\\' = ['\\', '\\'] from rfl,
          psb_esc_unit f '\\' ['\\'] _ rfl, ihr]
        rfl
      · by_cases h3 : c = '\n'
        · subst h3
          rw [show escapeChar '\n' = ['\\', 'n'] from rfl,
            psb_esc_unit f '\n' ['n'] _ rfl, ihr]
          rfl
        · by_cases h4 : c = '\r'
          · subst h4
            rw [show escapeChar '\r' = ['\\', 'r'] from rfl,
              psb_esc_unit f '\r' ['r'] _ rfl, ihr]
            rfl
          · by_cases h5 : c = '\t'
            · subst h5
              rw [show escapeChar '\t' = ['\\', 't'] from rfl,
                psb_esc_unit f '\t' ['t'] _ rfl, ihr]
              rfl
            · by_cases h6 : c.toNat < 32
              · rw [show escapeChar c =
                    '\\' :: 'u' :: '0' :: '0' :: hexDigitChar (c.toNat / 16) ::
                      [hexDigitChar (c.toNat % 16)] from by
                    simp [escapeChar, h1, h2, h3, h4, h5, h6]]
                rw [psb_esc_unit f c _ _ (parseEscape_u00 c h6 _), ihr]
                rfl
              · by_cases h7 : c = '<'
                · subst h7
                  rw [show escapeChar '<' = '\\' :: 'u' :: '0' :: '0' :: '3' :: ['c'] from rfl,
                    psb_esc_unit f '<' ['u', '0', '0', '3', 'c'] _ rfl, ihr]
                  rfl
                · by_cases h8 : c = '>'
                  · subst h8
                    rw [show escapeChar '>' = '\\' :: 'u' :: '0' :: '0' :: '3' :: ['e'] from rfl,
                      psb_esc_unit f '>' ['u', '0', '0', '3', 'e'] _ rfl, ihr]
                    rfl
                  · by_cases h9 : c = '&'
                    · subst h9
                      rw [show escapeChar '&' = '\\' :: 'u' :: '0' :: '0' :: '2' :: ['6'] from rfl,
                        psb_esc_unit f '&' ['u', '0', '0', '2', '6'] _ rfl, ihr]
                      rfl
                    · by_cases h10 : c.toNat = 0x2028
                      · have hc : c = Char.ofNat 0x2028 := by
                          rw [← h10, Char.ofNat_toNat]
                        subst hc
                        rw [show escapeChar (Char.ofNat 0x2028) =
                            '\\' :: 'u' :: '2' :: '0' :: '2' :: ['8'] from by
                          simp [escapeChar, h1, h2, h3, h4, h5, h6, h7, h8, h9]]
                        rw [psb_esc_unit f (Char.ofNat 0x2028) ['u', '2', '0', '2', '8'] _ rfl, ihr]
                        rfl
                      · by_cases h11 : c.toNat = 0x2029
                        · have hc : c = Char.ofNat 0x2029 := by
                            rw [← h11, Char.ofNat_toNat]
                          subst hc
                          rw [show escapeChar (Char.ofNat 0x2029) =
                              '\\' :: 'u' :: '2' :: '0' :: '2' :: ['9'] from by
                            simp [escapeChar, h1, h2, h3, h4, h5, h6, h7, h8, h9, h10]]
                          rw [psb_esc_unit f (Char.ofNat 0x2029) ['u', '2', '0', '2', '9'] _ rfl, ihr]
                          rfl
                        · rw [show escapeChar c = [c] from by
                            simp [escapeChar, h1, h2, h3, h4, h5, h6, h7, h8, h9, h10, h11]]
                          rw [List.singleton_append, psb_raw f c h1 h2, ihr]
                          rfl

set_option maxHeartbeats 1000000 in
lemma escapeChar_length_pos (c : Char) : 1 ≤ (escapeChar c).length := by
  unfold escapeChar
  split_ifs <;> simp only [List.length_cons, List.length_nil] <;> omega

lemma length_le_escapeString (s : GoStr) : s.length ≤ (escapeString s).length := by
  induction s with
  | nil => simp [escapeString]
  | cons c cs ih =>
    rw [escapeString_cons]
    simp only [List.length_append, List.length_cons]
    have := escapeChar_length_pos c
    omega

lemma parseJSONString_quote (fuel : Nat) (s rest : GoStr) (h : s.length < fuel) :
    parseJSONString fuel (jsonQuote s ++ rest) = some (s, rest) := by
  rw [jsonQuote, List.cons_append]
  have hstep : parseJSONString fuel (quoteCh :: ((escapeString s ++ [quoteCh]) ++ rest)) =
      parseStringBody fuel ((escapeString s ++ [quoteCh]) ++ rest) := rfl
  rw [hstep, List.append_assoc, List.singleton_append]
  exact parseStringBody_escape s fuel rest h

lemma parseMembers_comma (fuel : Nat) (m : AlbumMetadata) (k v rest : GoStr)
    (hk : k.length ≤ fuel) (hv : v.length ≤ fuel) :
    parseMembers (fuel + 1) m (jsonQuote k ++ (':' :: (jsonQuote v ++ (',' :: rest)))) =
      parseMembers fuel (applyField m k v) rest := by
  rw [parseMembers]
  rw [parseJSONString_quote (fuel + 1) k (':' :: (jsonQuote v ++ (',' :: rest))) (by omega)]
  dsimp only
  rw [if_pos rfl]
  rw [parseJSONString_quote (fuel + 1) v (',' :: rest) (by omega)]
  dsimp only
  rw [if_pos rfl]

lemma parseMembers_close (fuel : Nat) (m : AlbumMetadata) (k v rest : GoStr)
    (hk : k.length ≤ fuel) (hv : v.length ≤ fuel) :
    parseMembers (fuel + 1) m (jsonQuote k ++ (':' :: (jsonQuote v ++ (rbrace :: rest)))) =
      some (applyField m k v, rest) := by
  rw [parseMembers]
  rw [parseJSONString_quote (fuel + 1) k (':' :: (jsonQuote v ++ (rbrace :: rest))) (by omega)]
  dsimp only
  rw [if_pos rfl]
  rw [parseJSONString_quote (fuel + 1) v (rbrace :: rest) (by omega)]
  dsimp only
  rw [if_neg (by decide), if_pos rfl]

lemma parseMembers_full (f : Nat) (a t y : GoStr)
    (ha : a.length ≤ f + 2) (ht : t.length ≤ f + 1) (hy : y.length ≤ f) (hf : 4 ≤ f) :
    parseMembers (f + 3) ⟨[], [], []⟩ (marshalMembers a t y) = some (⟨a, t, y⟩, []) := by
  rw [marshalMembers]
  rw [show f + 3 = f + 2 + 1 by omega]
  rw [parseMembers_comma (f + 2) _ _ _ _ (by rw [show (str "artist").length = 6 from rfl]; omega) ha]
  rw [show f + 2 = f + 1 + 1 by omega]
  rw [parseMembers_comma (f + 1) _ _ _ _ (by rw [show (str "title").length = 5 from rfl]; omega) ht]
  rw [parseMembers_close f _ _ _ _ (by rw [show (str "year").length = 4 from rfl]; omega) hy]
  rfl

lemma marshalMembers_length (a t y : GoStr) :
    (marshalMembers a t y).length =
      (escapeString a).length + (escapeString t).length + (escapeString y).length + 33 := by
  rw [marshalMembers]
  simp only [jsonQuote, List.length_append, List.length_cons, List.length_nil,
    show (escapeString (str "artist")).length = 6 from rfl,
    show (escapeString (str "title")).length = 5 from rfl,
    show (escapeString (str "year")).length = 4 from rfl]
  omega

lemma marshalMembers_ne_single (a t y : GoStr) : marshalMembers a t y ≠ [rbrace] := by
  rw [marshalMembers, jsonQuote, List.cons_append]
  intro hEq
  injection hEq with h1 h2
  exact absurd h1 (by decide)

lemma unmarshal_marshal (m : AlbumMetadata) :
    unmarshalMetadata (marshalMetadata m) = some m := by
  obtain ⟨a, t, y⟩ := m
  rw [marshalMetadata]
  dsimp only
  rw [unmarshalMetadata]
  rw [if_pos rfl]
  rw [if_neg (marshalMembers_ne_single a t y)]
  rw [marshalMembers_length a t y]
  have hEa := length_le_escapeString a
  have hEt := length_le_escapeString t
  have hEy := length_le_escapeString y
  rw [show (escapeString a).length + (escapeString t).length + (escapeString y).length + 33 =
      ((escapeString a).length + (escapeString t).length + (escapeString y).length + 30) + 3
    by omega]
  rw [parseMembers_full _ a t y (by omega) (by omega) (by omega) (by omega)]
  rfl


/-! ## Helper facts about the handlers -/


/-- The local GET handler queries the database on every input and never answers 400: it has no identifier-parsing step at all. -/

lemma localGetAlbums_always_queries (idStr : GoStr) (qOk : Bool) (db : LocalDB) :
    (localGetAlbums idStr qOk db).2 = true ∧ (localGetAlbums idStr qOk db).1.status ≠ 400 := by
  unfold localGetAlbums
  by_cases hq : qOk
  · simp only [hq, not_true, if_false, ite_false]
    cases hlk : db.lookup (mysqlKeyCoerce idStr) with
    | none => simp [LocalGetResp.status]
    | some r =>
      cases hum : unmarshalMetadata r.metadata with
      | none => simp [hlk, hum, LocalGetResp.status]
      | some m => simp [hlk, hum, LocalGetResp.status]
  · simp only [hq] at *
    simp [LocalGetResp.status]


/-! ## The claims -/


/-- C1: for every valid upload (file present, any artist/title/year strings), createAlbum returns the new id, and getAlbum on that id returns artist, title and year exactly as submitted — discrete columns in the remote variant, serialized JSON metadata in the local variant. -/

theorem c1_roundtrip (bucket uuid : GoStr) (f : FilePart) (form : List (GoStr × GoStr))
    (db : RemoteDB) (idStr : GoStr) (hid : goAtoi idStr = some db.nextId)
    (fs : LocalFS) (ldb : LocalDB) (lidStr : GoStr)
    (hlid : mysqlKeyCoerce lidStr = ldb.nextId) :
    ((newAlbum bucket uuid ⟨some f, form⟩ ⟨true, true, true⟩ true db).1 =
        .ok db.nextId (f.content.length : Int) ∧
      getAlbumByKey idStr true
          (newAlbum bucket uuid ⟨some f, form⟩ ⟨true, true, true⟩ true db).2 =
        (.ok ⟨db.nextId, s3URL bucket (s3Key uuid f.filename),
          postForm form (str "profile[artist]"), postForm form (str "profile[title]"),
          postForm form (str "profile[year]"), 0⟩, true)) ∧
    ((localPostAlbums ⟨some f, form⟩ ⟨true, true, true, true⟩ true fs ldb).1 =
        .ok ldb.nextId (filepathJoin imageDir f.filename) ∧
      localGetAlbums lidStr true
          (localPostAlbums ⟨some f, form⟩ ⟨true, true, true, true⟩ true fs ldb).2.2 =
        (.ok ⟨ldb.nextId, filepathJoin imageDir f.filename,
          ⟨postForm form (str "artist"), postForm form (str "title"),
           postForm form (str "year")⟩⟩, true)) := by
  refine ⟨⟨rfl, ?_⟩, rfl, ?_⟩
  · have hdb2 : (newAlbum bucket uuid ⟨some f, form⟩ ⟨true, true, true⟩ true db).2 =
        ⟨db.nextId + 1,
          (db.nextId, ⟨s3URL bucket (s3Key uuid f.filename),
            postForm form (str "profile[artist]"), postForm form (str "profile[title]"),
            postForm form (str "profile[year]")⟩) :: db.rows⟩ := rfl
    rw [hdb2]
    unfold getAlbumByKey
    rw [hid]
    simp [RemoteDB.lookup, List.find?]
  · have hdb2 : (localPostAlbums ⟨some f, form⟩ ⟨true, true, true, true⟩ true fs ldb).2.2 =
        ⟨ldb.nextId + 1,
          (ldb.nextId, ⟨filepathJoin imageDir f.filename,
            marshalMetadata ⟨postForm form (str "artist"), postForm form (str "title"),
              postForm form (str "year")⟩⟩) :: ldb.rows⟩ := rfl
    rw [hdb2]
    unfold localGetAlbums
    rw [hlid]
    simp [LocalDB.lookup, List.find?, unmarshal_marshal]

/-- C1 witness: the round trip evaluated at a concrete upload and identifier 1 in both variants. -/

theorem c1_witness :
    goAtoi (str "1") = some (⟨1, []⟩ : RemoteDB).nextId ∧
    mysqlKeyCoerce (str "1") = (⟨1, []⟩ : LocalDB).nextId ∧
    (((newAlbum (str "b") (str "u")
        ⟨some ⟨str "c.png", str "image/png", [1, 2, 3]⟩,
         [(str "profile[artist]", str "A"), (str "profile[title]", str "T"),
          (str "profile[year]", str "Y"), (str "artist", str "a"),
          (str "title", str "t"), (str "year", str "y")]⟩
        ⟨true, true, true⟩ true ⟨1, []⟩).1 = .ok 1 3 ∧
      getAlbumByKey (str "1") true
          (newAlbum (str "b") (str "u")
            ⟨some ⟨str "c.png", str "image/png", [1, 2, 3]⟩,
             [(str "profile[artist]", str "A"), (str "profile[title]", str "T"),
              (str "profile[year]", str "Y"), (str "artist", str "a"),
              (str "title", str "t"), (str "year", str "y")]⟩
            ⟨true, true, true⟩ true ⟨1, []⟩).2 =
        (.ok ⟨1, s3URL (str "b") (s3Key (str "u") (str "c.png")),
          str "A", str "T", str "Y", 0⟩, true)) ∧
     ((localPostAlbums
        ⟨some ⟨str "c.png", str "image/png", [1, 2, 3]⟩,
         [(str "profile[artist]", str "A"), (str "profile[title]", str "T"),
          (str "profile[year]", str "Y"), (str "artist", str "a"),
          (str "title", str "t"), (str "year", str "y")]⟩
        ⟨true, true, true, true⟩ true ⟨[], []⟩ ⟨1, []⟩).1 =
        .ok 1 (filepathJoin imageDir (str "c.png")) ∧
      localGetAlbums (str "1") true
          (localPostAlbums
            ⟨some ⟨str "c.png", str "image/png", [1, 2, 3]⟩,
             [(str "profile[artist]", str "A"), (str "profile[title]", str "T"),
              (str "profile[year]", str "Y"), (str "artist", str "a"),
              (str "title", str "t"), (str "year", str "y")]⟩
            ⟨true, true, true, true⟩ true ⟨[], []⟩ ⟨1, []⟩).2.2 =
        (.ok ⟨1, filepathJoin imageDir (str "c.png"),
          ⟨str "a", str "t", str "y"⟩⟩, true))) :=
  ⟨rfl, rfl,
    c1_roundtrip (str "b") (str "u") ⟨str "c.png", str "image/png", [1, 2, 3]⟩
      [(str "profile[artist]", str "A"), (str "profile[title]", str "T"),
       (str "profile[year]", str "Y"), (str "artist", str "a"),
       (str "title", str "t"), (str "year", str "y")]
      ⟨1, []⟩ (str "1") rfl ⟨[], []⟩ ⟨1, []⟩ (str "1") rfl⟩

/-- C2 counterexample: in the local variant the GET handler performs a database query on the non-numeric identifier abc (query flag true) and answers 404, never 400 — refuting the claim, which asserts 400 and no query for both variants. -/

theorem c2_counterexample :
    localGetAlbums (str "abc") true ⟨1, []⟩ = (.notFound, true) ∧
    LocalGetResp.status .notFound = 404 := by
  constructor
  · rfl
  · rfl

/-- C2 amended: in the remote variant every non-numeric identifier yields HTTP 400 and no database query; in the local variant the identifier is bound unparsed into the query, so a database query is always performed and the status is never 400. -/

theorem c2_amended (idStr : GoStr) (qOk : Bool) (db : RemoteDB) (ldb : LocalDB)
    (h : goAtoi idStr = none) :
    getAlbumByKey idStr qOk db = (.badRequest, false) ∧
    GetAlbumResp.status .badRequest = 400 ∧
    (localGetAlbums idStr qOk ldb).2 = true ∧
    (localGetAlbums idStr qOk ldb).1.status ≠ 400 := by
  refine ⟨?_, rfl, ?_, ?_⟩
  · unfold getAlbumByKey
    rw [h]
  · exact (localGetAlbums_always_queries idStr qOk ldb).1
  · exact (localGetAlbums_always_queries idStr qOk ldb).2

/-- C2 witness: the amended claim evaluated at the non-numeric identifier abc. -/

theorem c2_witness :
    goAtoi (str "abc") = none ∧
    (getAlbumByKey (str "abc") true ⟨1, []⟩ = (.badRequest, false) ∧
     GetAlbumResp.status .badRequest = 400 ∧
     (localGetAlbums (str "abc") true ⟨1, []⟩).2 = true ∧
     (localGetAlbums (str "abc") true ⟨1, []⟩).1.status ≠ 400) :=
  ⟨rfl, c2_amended (str "abc") true ⟨1, []⟩ ⟨1, []⟩ rfl⟩

/-- C3 counterexample: a remote-variant request supplying multipart fields named exactly artist, title, year has empty strings stored in all three metadata columns — the remote handler reads fields named profile[artist], profile[title], profile[year]. -/

theorem c3_counterexample :
    (newAlbum (str "b") (str "u")
       ⟨some ⟨str "cover.jpg", str "image/jpeg", [1, 2]⟩,
        [(str "artist", str "A"), (str "title", str "T"), (str "year", str "Y")]⟩
       ⟨true, true, true⟩ true ⟨1, []⟩).2.rows =
      [(1, ⟨s3URL (str "b") (s3Key (str "u") (str "cover.jpg")), [], [], []⟩)] := by
  rfl

/-- C3 amended: the local variant reads multipart text fields named exactly artist, title, year; the remote variant reads profile[artist], profile[title], profile[year]; each variant stores exactly the values read under its own field names. -/

theorem c3_amended (bucket uuid : GoStr) (f : FilePart) (form : List (GoStr × GoStr))
    (db : RemoteDB) (fs : LocalFS) (ldb : LocalDB) :
    (newAlbum bucket uuid ⟨some f, form⟩ ⟨true, true, true⟩ true db).2.rows.head? =
      some (db.nextId,
        ⟨s3URL bucket (s3Key uuid f.filename),
         postForm form (str "profile[artist]"),
         postForm form (str "profile[title]"),
         postForm form (str "profile[year]")⟩) ∧
    (localPostAlbums ⟨some f, form⟩ ⟨true, true, true, true⟩ true fs ldb).2.2.rows.head? =
      some (ldb.nextId,
        ⟨filepathJoin imageDir f.filename,
         marshalMetadata ⟨postForm form (str "artist"), postForm form (str "title"),
           postForm form (str "year")⟩⟩) := by
  constructor
  · rfl
  · rfl

/-- C4 counterexample: the negative identifier -1 parses in the remote GET handler, a database lookup is performed (query flag true) and the result is 404 — not the client-input error the claim requires. -/

theorem c4_counterexample :
    getAlbumByKey (str "-1") true ⟨1, []⟩ = (.notFound, true) ∧
    GetAlbumResp.status .notFound = 404 := by
  constructor
  · rfl
  · rfl

/-- C4 amended: the remote getAlbum answers 400 without a query exactly when strconv.Atoi rejects the identifier; every identifier parsing as an integer, negative ones included, leads to a database lookup, yielding 404 when no row matches. -/

theorem c4_amended (s : GoStr) (db : RemoteDB) :
    (goAtoi s = none → getAlbumByKey s true db = (.badRequest, false)) ∧
    (∀ n : Int, goAtoi s = some n → (getAlbumByKey s true db).2 = true ∧
      (db.lookup n = none → getAlbumByKey s true db = (.notFound, true))) := by
  constructor
  · intro h
    unfold getAlbumByKey
    rw [h]
  · intro n hn
    constructor
    · unfold getAlbumByKey
      rw [hn]
      cases hlk : db.lookup n <;> simp [hlk]
    · intro hmiss
      unfold getAlbumByKey
      rw [hn]
      simp [hmiss]

/-- C4 witness: the amended claim evaluated at the identifiers -1 and x. -/

theorem c4_witness :
    goAtoi (str "-1") = some (-1) ∧
    (getAlbumByKey (str "-1") true ⟨1, []⟩).2 = true ∧
    ((⟨1, []⟩ : RemoteDB).lookup (-1) = none →
      getAlbumByKey (str "-1") true ⟨1, []⟩ = (.notFound, true)) ∧
    (goAtoi (str "x") = none → getAlbumByKey (str "x") true ⟨1, []⟩ = (.badRequest, false)) ∧
    goAtoi (str "x") = none :=
  ⟨by decide, ((c4_amended (str "-1") ⟨1, []⟩).2 (-1) (by decide)).1,
   ((c4_amended (str "-1") ⟨1, []⟩).2 (-1) (by decide)).2,
   (c4_amended (str "x") ⟨1, []⟩).1, rfl⟩

/-- C5: when the blob-store write fails (any failing step), the POST handler of either variant aborts with HTTP 500 and the repository state is unchanged — no insert is attempted. -/

theorem c5_blob_failure_no_insert (bucket uuid : GoStr) (req : NewReq) (f : FilePart)
    (hf : req.file = some f) (eff : S3Eff)
    (hEff : eff.tempFileOk = false ∨ eff.copyOk = false ∨ eff.putOk = false)
    (insertOk : Bool) (db : RemoteDB) (leff : FsEff)
    (hLeff : leff.mkdirOk = false ∨ leff.openOk = false ∨ leff.createOk = false ∨
      leff.copyOk = false)
    (linsertOk : Bool) (fs : LocalFS) (ldb : LocalDB) :
    (newAlbum bucket uuid req eff insertOk db = (.s3Error, db) ∧
      NewAlbumResp.status .s3Error = 500) ∧
    ((localPostAlbums req leff linsertOk fs ldb).1 = .fsError ∧
      (localPostAlbums req leff linsertOk fs ldb).2.2 = ldb ∧
      LocalNewResp.status .fsError = 500) := by
  have hs3 : uploadToS3 bucket uuid f eff = none := by
    unfold uploadToS3
    rcases hEff with h | h | h <;> simp [h]
  have hsave : (saveImageLocally f leff fs).1 = none := by
    unfold saveImageLocally
    rcases hLeff with h | h | h | h <;> simp [h] <;> try (repeat' split) <;> try rfl
  refine ⟨⟨?_, rfl⟩, ?_, ?_, rfl⟩
  · unfold newAlbum
    rw [hf]
    simp [hs3]
  · unfold localPostAlbums
    rw [hf]
    dsimp only
    cases hsv : saveImageLocally f leff fs with
    | mk fst snd =>
      cases fst with
      | none => rfl
      | some p => rw [hsv] at hsave; simp at hsave
  · unfold localPostAlbums
    rw [hf]
    dsimp only
    cases hsv : saveImageLocally f leff fs with
    | mk fst snd =>
      cases fst with
      | none => rfl
      | some p => rw [hsv] at hsave; simp at hsave

/-- C5 witness: a failing first storage step in each variant, at a concrete request. -/

theorem c5_witness :
    (⟨some ⟨str "c.png", str "image/png", [1]⟩, []⟩ : NewReq).file =
      some ⟨str "c.png", str "image/png", [1]⟩ ∧
    ((⟨false, true, true⟩ : S3Eff).tempFileOk = false ∨
      (⟨false, true, true⟩ : S3Eff).copyOk = false ∨
      (⟨false, true, true⟩ : S3Eff).putOk = false) ∧
    ((⟨false, true, true, true⟩ : FsEff).mkdirOk = false ∨
      (⟨false, true, true, true⟩ : FsEff).openOk = false ∨
      (⟨false, true, true, true⟩ : FsEff).createOk = false ∨
      (⟨false, true, true, true⟩ : FsEff).copyOk = false) ∧
    ((newAlbum (str "b") (str "u") ⟨some ⟨str "c.png", str "image/png", [1]⟩, []⟩
        ⟨false, true, true⟩ true ⟨1, []⟩ = (.s3Error, ⟨1, []⟩) ∧
      NewAlbumResp.status .s3Error = 500) ∧
     ((localPostAlbums ⟨some ⟨str "c.png", str "image/png", [1]⟩, []⟩
        ⟨false, true, true, true⟩ true ⟨[], []⟩ ⟨1, []⟩).1 = .fsError ∧
      (localPostAlbums ⟨some ⟨str "c.png", str "image/png", [1]⟩, []⟩
        ⟨false, true, true, true⟩ true ⟨[], []⟩ ⟨1, []⟩).2.2 = ⟨1, []⟩ ∧
      LocalNewResp.status .fsError = 500)) :=
  ⟨rfl, Or.inl rfl, Or.inl rfl,
   c5_blob_failure_no_insert (str "b") (str "u")
     ⟨some ⟨str "c.png", str "image/png", [1]⟩, []⟩ ⟨str "c.png", str "image/png", [1]⟩
     rfl ⟨false, true, true⟩ (Or.inl rfl) true ⟨1, []⟩
     ⟨false, true, true, true⟩ (Or.inl rfl) true ⟨[], []⟩ ⟨1, []⟩⟩

/-- C6: a well-formed identifier matching no stored record yields exactly the distinguished 404 not-found outcome in both variants, distinct from the 500 infrastructure-error outcomes. -/

theorem c6_notfound (idStr : GoStr) (id : Int) (db : RemoteDB)
    (hid : goAtoi idStr = some id) (hmiss : db.lookup id = none)
    (lidStr : GoStr) (ldb : LocalDB) (hlmiss : ldb.lookup (mysqlKeyCoerce lidStr) = none) :
    getAlbumByKey idStr true db = (.notFound, true) ∧
    GetAlbumResp.status .notFound = 404 ∧
    localGetAlbums lidStr true ldb = (.notFound, true) ∧
    LocalGetResp.status .notFound = 404 ∧
    GetAlbumResp.status .dbError = 500 ∧
    LocalGetResp.status .dbError = 500 := by
  refine ⟨?_, rfl, ?_, rfl, rfl, rfl⟩
  · unfold getAlbumByKey
    rw [hid]
    simp [hmiss]
  · unfold localGetAlbums
    simp [hlmiss]

/-- C6 witness: the never-created identifier 999999 against empty databases in both variants. -/

theorem c6_witness :
    goAtoi (str "999999") = some 999999 ∧
    (⟨1, []⟩ : RemoteDB).lookup 999999 = none ∧
    (⟨1, []⟩ : LocalDB).lookup (mysqlKeyCoerce (str "999999")) = none ∧
    (getAlbumByKey (str "999999") true ⟨1, []⟩ = (.notFound, true) ∧
     GetAlbumResp.status .notFound = 404 ∧
     localGetAlbums (str "999999") true ⟨1, []⟩ = (.notFound, true) ∧
     LocalGetResp.status .notFound = 404 ∧
     GetAlbumResp.status .dbError = 500 ∧
     LocalGetResp.status .dbError = 500) :=
  ⟨by decide, rfl, rfl,
   c6_notfound (str "999999") 999999 ⟨1, []⟩ (by decide) rfl
     (str "999999") ⟨1, []⟩ rfl⟩

/-- C7: a successful uploadToS3 returns the URL built deterministically from the bucket name and the key images/<uuid><ext> — the freshly drawn uuid preserving only the original filename's extension, not the filename — together with the exact number of bytes of the uploaded stream. -/

theorem c7_uploadToS3 (bucket uuid : GoStr) (f : FilePart) (eff : S3Eff)
    (h : eff = ⟨true, true, true⟩) :
    uploadToS3 bucket uuid f eff =
      some (str "https://" ++ bucket ++ str ".s3.amazonaws.com/" ++
              (str "images/" ++ uuid ++ filepathExt f.filename),
            (f.content.length : Int)) := by
  subst h
  rfl

/-- C7 witness: a concrete successful upload of a three-byte cover.jpg. -/

theorem c7_witness :
    (⟨true, true, true⟩ : S3Eff) = ⟨true, true, true⟩ ∧
    uploadToS3 (str "b") (str "u") ⟨str "cover.jpg", str "image/jpeg", [9, 9, 9]⟩
        ⟨true, true, true⟩ =
      some (str "https://" ++ str "b" ++ str ".s3.amazonaws.com/" ++
              (str "images/" ++ str "u" ++ filepathExt (str "cover.jpg")),
            ((3 : Nat) : Int)) :=
  ⟨rfl, c7_uploadToS3 (str "b") (str "u") ⟨str "cover.jpg", str "image/jpeg", [9, 9, 9]⟩
    ⟨true, true, true⟩ rfl⟩

/-- C8: a successful saveImageLocally ensures the fixed image directory exists, writes the uploaded bytes to the file at filepath.Join of the directory and the original filename, returns that relative path, and maps equal filenames to the same path (last write wins). -/

theorem c8_saveImageLocally (f : FilePart) (eff : FsEff)
    (h : eff = ⟨true, true, true, true⟩) (fs : LocalFS) (g : FilePart)
    (hsame : g.filename = f.filename) :
    (saveImageLocally f eff fs).1 = some (filepathJoin imageDir f.filename) ∧
    (saveImageLocally f eff fs).2.readFile (filepathJoin imageDir f.filename) =
      some f.content ∧
    (saveImageLocally f eff fs).2.dirs.head? = some imageDir ∧
    filepathJoin imageDir g.filename = filepathJoin imageDir f.filename := by
  subst h
  refine ⟨rfl, ?_, rfl, by rw [hsame]⟩
  have hs : saveImageLocally f ⟨true, true, true, true⟩ fs =
      (some (filepathJoin imageDir f.filename),
        LocalFS.setFile ⟨imageDir :: fs.dirs.filter (· ≠ imageDir), fs.files⟩
          (filepathJoin imageDir f.filename) f.content) := rfl
  rw [hs]
  simp [LocalFS.setFile, LocalFS.readFile, List.find?]

/-- C8 witness: a concrete upload of cover.jpg into an empty filesystem, and a second part with the same filename targeting the same path. -/

theorem c8_witness :
    (⟨true, true, true, true⟩ : FsEff) = ⟨true, true, true, true⟩ ∧
    (⟨str "cover.jpg", str "text/plain", [3]⟩ : FilePart).filename =
      (⟨str "cover.jpg", str "image/jpeg", [1, 2]⟩ : FilePart).filename ∧
    ((saveImageLocally ⟨str "cover.jpg", str "image/jpeg", [1, 2]⟩
        ⟨true, true, true, true⟩ ⟨[], []⟩).1 =
      some (filepathJoin imageDir (str "cover.jpg")) ∧
     (saveImageLocally ⟨str "cover.jpg", str "image/jpeg", [1, 2]⟩
        ⟨true, true, true, true⟩ ⟨[], []⟩).2.readFile
          (filepathJoin imageDir (str "cover.jpg")) = some [1, 2] ∧
     (saveImageLocally ⟨str "cover.jpg", str "image/jpeg", [1, 2]⟩
        ⟨true, true, true, true⟩ ⟨[], []⟩).2.dirs.head? = some imageDir ∧
     filepathJoin imageDir (str "cover.jpg") = filepathJoin imageDir (str "cover.jpg")) :=
  ⟨rfl, rfl,
   c8_saveImageLocally ⟨str "cover.jpg", str "image/jpeg", [1, 2]⟩ ⟨true, true, true, true⟩
     rfl ⟨[], []⟩ ⟨str "cover.jpg", str "text/plain", [3]⟩ rfl⟩

/-- C9: every successful remote GET response carries imageSize 0 regardless of the stored image's size: the size is never persisted, and Scan fills only the five selected columns of the zero-valued Album. -/

theorem c9_imageSize_zero (idStr : GoStr) (id : Int) (db : RemoteDB) (row : AlbumRow)
    (hid : goAtoi idStr = some id) (hrow : db.lookup id = some row) :
    getAlbumByKey idStr true db =
      (.ok ⟨id, row.image_url, row.artist, row.title, row.year, 0⟩, true) := by
  unfold getAlbumByKey
  rw [hid]
  simp [hrow]

/-- C9 witness: a concrete stored row read back with imageSize 0. -/

theorem c9_witness :
    goAtoi (str "1") = some 1 ∧
    (⟨2, [(1, ⟨str "u", str "A", str "T", str "Y"⟩)]⟩ : RemoteDB).lookup 1 =
      some ⟨str "u", str "A", str "T", str "Y"⟩ ∧
    getAlbumByKey (str "1") true ⟨2, [(1, ⟨str "u", str "A", str "T", str "Y"⟩)]⟩ =
      (.ok ⟨1, str "u", str "A", str "T", str "Y", 0⟩, true) :=
  ⟨by decide, rfl,
   c9_imageSize_zero (str "1") 1 ⟨2, [(1, ⟨str "u", str "A", str "T", str "Y"⟩)]⟩
     ⟨str "u", str "A", str "T", str "Y"⟩ (by decide) rfl⟩

/-- C10: the metadata column stored by the local POST handler always unmarshals successfully, reproducing the submitted fields, so the GET handler's decode-failure branch is unreachable for rows created by this service. -/

theorem c10_unmarshal_total (f : FilePart) (form : List (GoStr × GoStr)) (fs : LocalFS)
    (ldb : LocalDB) :
    ∃ row,
      (localPostAlbums ⟨some f, form⟩ ⟨true, true, true, true⟩ true fs ldb).2.2.lookup
          ldb.nextId = some row ∧
      unmarshalMetadata row.metadata =
        some ⟨postForm form (str "artist"), postForm form (str "title"),
          postForm form (str "year")⟩ := by
  refine ⟨⟨filepathJoin imageDir f.filename,
    marshalMetadata ⟨postForm form (str "artist"), postForm form (str "title"),
      postForm form (str "year")⟩⟩, ?_, unmarshal_marshal _⟩
  have hdb2 : (localPostAlbums ⟨some f, form⟩ ⟨true, true, true, true⟩ true fs ldb).2.2 =
      ⟨ldb.nextId + 1,
        (ldb.nextId, ⟨filepathJoin imageDir f.filename,
          marshalMetadata ⟨postForm form (str "artist"), postForm form (str "title"),
            postForm form (str "year")⟩⟩) :: ldb.rows⟩ := rfl
  rw [hdb2]
  simp [LocalDB.lookup, List.find?]
end AlbumStore
